import Mathlib

/-!
Verification development for the engine's texture resource front end
(`Texture`, from `texture.js`) and its WebGL backend (`WebglTexture`, from
`webgl-texture.js`).  The two classes are embedded shallowly: JavaScript
`Map`s become insertion-ordered association lists, `Set`s become lists,
`Debug.assert` / `Debug.warn` become an accumulated list of diagnostic
strings (they never alter control flow), GL calls become an event trace,
and the operations that can throw a `TypeError` in JavaScript return
`Except Unit`.  Helper modules that are not part of the reviewed source
(`constants.js`, `texture-utils.js`, `math.js`) are modelled from the
spec; each such definition carries a doc comment saying so.
-/

namespace Pc

/-- Texture dimensionality variants (2D, 3D/volume, 2D array, cubemap).
Modelled from the spec: the four TEXTUREDIMENSION tags of `constants.js`
(not part of the reviewed source) are represented as an inductive type. -/
inductive TextureDimension
  | d2
  | d3
  | d2Array
  | cube
deriving DecidableEq, Repr

/-- Modelled from the spec: a representative closed subset of the pixel
format enumeration of `constants.js` (not part of the reviewed source),
covering uncompressed, compressed and integer formats. -/
inductive PixelFormat
  | rgba8
  | rgb8
  | rgba32f
  | dxt1
  | etc1
  | r8u
  | r32i
  | rgba8i
  | rgba16u
deriving DecidableEq, Repr

/-- Modelled from the spec: the format enumeration maps each format
deterministically to its integer-or-not flag. -/
def isIntegerPixelFormat : PixelFormat → Bool
  | .r8u => true
  | .r32i => true
  | .rgba8i => true
  | .rgba16u => true
  | _ => false

/-- Modelled from the spec: the format enumeration maps each format
deterministically to its compressed-or-not flag. -/
def isCompressedPixelFormat : PixelFormat → Bool
  | .dxt1 => true
  | .etc1 => true
  | _ => false

/-- Modelled from the spec: bits per texel of each format (bytes-per-texel
times eight, so the compressed sub-byte formats stay exact). -/
def pixelFormatBits : PixelFormat → Nat
  | .rgba8 => 32
  | .rgb8 => 24
  | .rgba32f => 128
  | .dxt1 => 4
  | .etc1 => 4
  | .r8u => 8
  | .r32i => 32
  | .rgba8i => 32
  | .rgba16u => 64

/-- Structurally recursive floor-log2 kernel (fuel-based so that concrete
instances evaluate inside the kernel). -/
def log2Aux : Nat → Nat → Nat
  | 0, _ => 0
  | fuel + 1, n => if 2 ≤ n then log2Aux fuel (n / 2) + 1 else 0

/-- Floor of the base-2 logarithm, with `floorLog2 0 = 0`. -/
def floorLog2 (n : Nat) : Nat := log2Aux n n

/-- Modelled from the spec: `TextureUtils.calcMipLevelsCount` of
`texture-utils.js` (not part of the reviewed source).  The spec gives the
mip count as floor(log2(max(width, height))) + 1; the depth argument is
accepted because the `requiredMipLevels` getter passes it for volume
textures, but the spec formula does not involve it. -/
def calcMipLevelsCount (w h _d : Nat) : Nat := floorLog2 (max w h) + 1

/-- Modelled from the spec: `math.powerOfTwo` of `math.js` (not part of
the reviewed source); the `pot` getter documents it as the all-dimensions
power-of-two test. -/
def powerOfTwo (n : Nat) : Bool := n != 0 && (n &&& (n - 1)) == 0

/-- Modelled from the spec: `TextureUtils.calcGpuSize` of
`texture-utils.js` (not part of the reviewed source): the GPU footprint is
derived from the dimensions, slice count, format, and mip-chain presence
(a full mip chain adds one third on top). -/
def calcGpuSize (w h slices : Nat) (fmt : PixelFormat) (_volume mips : Bool) : Nat :=
  let base := w * h * slices * pixelFormatBits fmt / 8
  if mips then base + base / 3 else base

/-- Modelled from the spec: `TextureUtils.calcLevelGpuSize` of
`texture-utils.js` (not part of the reviewed source): byte size of a
single mip level of the given dimensions. -/
def calcLevelGpuSize (w h d : Nat) (fmt : PixelFormat) : Nat :=
  w * h * d * pixelFormatBits fmt / 8

/-- Modelled from the spec: the filter enumeration of `constants.js` (not
part of the reviewed source); only distinctness of the values matters. -/
def FILTER_NEAREST : Nat := 0

/-- Modelled from the spec: the bilinear filter enumeration value. -/
def FILTER_LINEAR : Nat := 1

/-- Modelled from the spec: the default trilinear minification filter. -/
def FILTER_LINEAR_MIPMAP_LINEAR : Nat := 5

/-- Modelled from the spec: lock-state value for an unlocked texture. -/
def TEXTURELOCK_NONE : Nat := 0

/-- Modelled from the spec: lock-state value for a read lock. -/
def TEXTURELOCK_READ : Nat := 1

/-- Modelled from the spec: lock-state value for a write lock. -/
def TEXTURELOCK_WRITE : Nat := 2

/-- Per-sampler-property dirty flag (texture.js line 27). -/
def PROPERTY_MIN_FILTER : Nat := 1

/-- Per-sampler-property dirty flag (texture.js line 28). -/
def PROPERTY_MAG_FILTER : Nat := 2

/-- All sampler-property dirty flags combined (texture.js line 35). -/
def PROPERTY_ALL : Nat := 255

/-- Operation bitmask: nothing pending (texture.js line 37). -/
def TEXTURE_OPERATION_NONE : Nat := 0

/-- Operation bitmask: full upload pending (texture.js line 38). -/
def TEXTURE_OPERATION_UPLOAD : Nat := 1

/-- Operation bitmask: only dirty levels and slices pending (texture.js
line 39, source name TEXTURE_OPERATION_UPLOAD_PARTIAL). -/
def TEXTURE_OPERATION_DIRTY_UPLOAD : Nat := 2

/-- Operation bitmask: mipmap chain invalidated (texture.js line 40). -/
def TEXTURE_OPERATION_CLEAR_MIPS : Nat := 4

/-- Mask used for the JavaScript 32-bit `op &= ~TEXTURE_OPERATION_CLEAR_MIPS`. -/
def CLEAR_MIPS_COMPLEMENT : Nat := 4294967295 - 4

/-- Insertion-ordered association list mirroring a JavaScript `Map`. -/
abbrev JsMap (α β : Type) : Type := List (α × β)

/-- `Map.prototype.get`: `none` plays the role of `undefined`. -/
def JsMap.get {α β : Type} [DecidableEq α] : JsMap α β → α → Option β
  | [], _ => none
  | (k, v) :: rest, k' => if k = k' then some v else JsMap.get rest k'

/-- `Map.prototype.set`: updates in place, appends a new key at the end
(insertion order is preserved, as in JavaScript). -/
def JsMap.set {α β : Type} [DecidableEq α] : JsMap α β → α → β → JsMap α β
  | [], k, v => [(k, v)]
  | (k0, v0) :: rest, k, v =>
      if k0 = k then (k0, v) :: rest else (k0, v0) :: JsMap.set rest k v

/-- `Map.prototype.size`. -/
def JsMap.size {α β : Type} (m : JsMap α β) : Nat := List.length m

/-- A pixel-data source stored in a level slot: a raw typed-array buffer
(carrying its byte size) or a browser image-like element carrying a width
and a height. -/
inductive TexData
  | buffer (size : Nat)
  | image (w h : Nat)
deriving DecidableEq, Repr

/-- The `width` read of a source element: `undefined || 0` gives `0` for a
raw buffer. -/
def TexData.width : TexData → Nat
  | .buffer _ => 0
  | .image w _ => w

/-- The `height` read of a source element. -/
def TexData.height : TexData → Nat
  | .buffer _ => 0
  | .image _ h => h

/-- The device predicate `_isBrowserInterface`: true exactly for
image/canvas/video-like elements. -/
def TexData.isBrowserInterface : TexData → Bool
  | .image _ _ => true
  | .buffer _ => false

/-- One entry of the `_levels` map: either a single buffer/element
(2D and 3D textures) or a nested slice-indexed map (cubemap/array). -/
inductive LevelEntry
  | single (d : TexData)
  | sliced (m : JsMap Nat TexData)
deriving DecidableEq, Repr

/-- One entry of the `_dirtyLevels` map: a whole-level boolean (2D/3D) or
a set of dirty slice indices (cubemap/array), kept in insertion order. -/
inductive DirtyEntry
  | whole (b : Bool)
  | slices (s : List Nat)
deriving DecidableEq, Repr

/-- The graphics device collaborator: only the fields the two reviewed
classes read are modelled. -/
structure Device where
  isWebGPU : Bool := false
  maxTextureSize : Nat := 4096
  maxCubeMapSize : Nat := 4096
deriving DecidableEq, Repr

/-- The WebGL backend state held by `WebglTexture`: whether the native
handle exists (`_glTexture`), whether storage was written at least once
(`_glCreated`), and the lazily collected sampler-property dirty flags.
The native format triple computed by `initialize` is not modelled. -/
structure WebglTextureImpl where
  _glTexture : Bool := false
  _glCreated : Bool := false
  dirtyParameterFlags : Nat := 0
deriving DecidableEq, Repr

/-- The `Texture` front-end state (texture.js).  `device = none` models the
nulled reference after `destroy`.  The profiler hint, the render-version
counter, the projection tag, the name and the address/compare/anisotropy
sampler fields are omitted: no reviewed claim concerns them. -/
structure Texture where
  device : Option Device := some {}
  impl : WebglTextureImpl := {}
  _width : Nat := 4
  _height : Nat := 4
  _slices : Nat := 1
  _dimension : TextureDimension := .d2
  _format : PixelFormat := .rgba8
  _mipmaps : Bool := true
  _minFilter : Nat := FILTER_LINEAR_MIPMAP_LINEAR
  _magFilter : Nat := FILTER_LINEAR
  _compressed : Bool := false
  _integerFormat : Bool := false
  _flipY : Bool := false
  _premultiplyAlpha : Bool := false
  _storage : Bool := false
  _lockedMode : Nat := TEXTURELOCK_NONE
  _operation : Nat := TEXTURE_OPERATION_NONE
  _levels : JsMap Nat LevelEntry := []
  _dirtyLevels : JsMap Nat DirtyEntry := []
  _gpuSize : Nat := 0
  _invalid : Bool := false
deriving DecidableEq, Repr

/-- Getter `cubemap` (texture.js line 743). -/
def Texture.cubemap (t : Texture) : Bool := t._dimension == .cube

/-- Getter `array` (texture.js line 757). -/
def Texture.array (t : Texture) : Bool := t._dimension == .d2Array

/-- Getter `volume` (texture.js line 766). -/
def Texture.volume (t : Texture) : Bool := t._dimension == .d3

/-- Getter `depth` (texture.js line 692): slice count for volume textures,
otherwise 1. -/
def Texture.depth (t : Texture) : Nat :=
  if t._dimension == .d3 then t._slices else 1

/-- Getter `slices` (texture.js line 701). -/
def Texture.slices (t : Texture) : Nat := t._slices

/-- Getter `pot` (texture.js line 804). -/
def Texture.pot (t : Texture) : Bool :=
  powerOfTwo t._width && powerOfTwo t._height

/-- Getter `gpuSize` (texture.js line 747). -/
def Texture.gpuSize (t : Texture) : Nat :=
  let mips := t.pot && t._mipmaps && !(t._compressed || t._integerFormat)
  calcGpuSize t._width t._height t._slices t._format t.volume mips

/-- Getter `requiredMipLevels` (texture.js line 441). -/
def Texture.requiredMipLevels (t : Texture) : Nat :=
  if t._mipmaps then calcMipLevelsCount t._width t._height t.depth else 1

/-- `propertyChanged` (texture.js line 430): forwards the flag to the
backend's lazy dirty-flag accumulator.  The render-version bump is outside
the modelled state. -/
def Texture.propertyChanged (t : Texture) (flag : Nat) : Texture :=
  { t with impl := { t.impl with dirtyParameterFlags := t.impl.dirtyParameterFlags ||| flag } }

/-- `dirtyAll` (texture.js line 827): request a full resubmission. -/
def Texture.dirtyAll (t : Texture) : Texture :=
  ({ t with _operation := t._operation ||| TEXTURE_OPERATION_UPLOAD }).propertyChanged PROPERTY_ALL

/-- Setter `minFilter` (texture.js line 471): rejected with a warning on
integer-format textures, otherwise updates the field and marks the
property dirty. -/
def Texture.setMinFilter (t : Texture) (v : Nat) : Texture × List String :=
  if t._minFilter != v then
    if isIntegerPixelFormat t._format then
      (t, ["minFilter property cannot be changed on an integer texture, will remain FILTER_NEAREST"])
    else
      (({ t with _minFilter := v }).propertyChanged PROPERTY_MIN_FILTER, [])
  else (t, [])

/-- Setter `magFilter` (texture.js line 494). -/
def Texture.setMagFilter (t : Texture) (v : Nat) : Texture × List String :=
  if t._magFilter != v then
    if isIntegerPixelFormat t._format then
      (t, ["magFilter property cannot be changed on an integer texture, will remain FILTER_NEAREST"])
    else
      (({ t with _magFilter := v }).propertyChanged PROPERTY_MAG_FILTER, [])
  else (t, [])

/-- Setter `mipmaps` (texture.js line 636): the flag itself is rejected on
WebGPU and on integer formats, but the CLEAR_MIPS toggle and `dirtyAll`
run in every changed case. -/
def Texture.setMipmaps (t : Texture) (v : Bool) : Texture × List String :=
  if t._mipmaps != v then
    let step :=
      if (t.device.map Device.isWebGPU).getD false then
        (t, ["mipmap property is currently not allowed to be changed on WebGPU, create the texture appropriately."])
      else if isIntegerPixelFormat t._format then
        (t, ["mipmap property cannot be changed on an integer texture, will remain false"])
      else
        ({ t with _mipmaps := v }, [])
    let t1 := step.1
    let t2 :=
      if v then { t1 with _operation := t1._operation &&& CLEAR_MIPS_COMPLEMENT }
      else { t1 with _operation := t1._operation ||| TEXTURE_OPERATION_CLEAR_MIPS }
    (t2.dirtyAll, step.2)
  else (t, [])

/-- `destroy` (texture.js line 346): guarded by the nulled device
reference, so a second call is a no-op.  The device-side texture registry
and uniform-scope eviction are registries outside the modelled state; the
shared VRAM texture total is threaded explicitly. -/
def Texture.destroy (t : Texture) (vramTex : Int) : Texture × Int :=
  match t.device with
  | some _ =>
      let t1 := { t with impl := { t.impl with _glTexture := false } }
      let vram1 := vramTex - (t1._gpuSize : Int)
      ({ t1 with _levels := [], device := none }, vram1)
  | none => (t, vramTex)

/-- `createSlice` inside `lock` (texture.js line 877): allocates the
backing buffer for one mip level, sized by the mip-scaled dimensions. -/
def Texture.createSlice (t : Texture) (level : Nat) : TexData :=
  let width := max 1 (t._width >>> level)
  let height := max 1 (t._height >>> level)
  let depth := max 1 (t.depth >>> level)
  .buffer (calcLevelGpuSize width height depth t._format)

/-- Options object of `Texture.lock`, with the defaults applied at entry. -/
structure LockOptions where
  level : Nat := 0
  slice : Nat := 0
  mode : Nat := TEXTURELOCK_WRITE
deriving DecidableEq, Repr

/-- `lock` (texture.js line 847).  The four `Debug.assert` calls become
diagnostics; the asserted condition on line 866 is transcribed exactly as
written in the source.  In the cubemap/array path no slice index is ever
added to the newly created dirty-slice set, again as in the source.  The
error case models the JavaScript TypeError hit when a cubemap/array level
slot holds a plain (non-map) entry. -/
def Texture.lock (t : Texture) (options : LockOptions) : Except Unit (Texture × List String) :=
  let d1 := if t._lockedMode == TEXTURELOCK_NONE then [] else
    ["The texture is already locked. Call texture.unlock before attempting to lock again."]
  let d2 := if options.mode == TEXTURELOCK_READ || options.mode == TEXTURELOCK_WRITE then [] else
    ["Cannot lock a texture with TEXTURELOCK_NONE. To unlock a texture, call texture.unlock."]
  let d3 := if options.slice == 0 && !(t.cubemap || t.array) then [] else
    ["Cannot lock a slice of a non-cubemap or non-texture array texture."]
  let d4 := if options.slice < t._slices then [] else
    ["Slice index out of bounds."]
  let diags := d1 ++ d2 ++ d3 ++ d4
  let t := { t with _lockedMode := options.mode }
  let level := t._levels.get options.level
  if t.cubemap || t.array then
    match level with
    | some (.single _) => .error ()
    | lv =>
        let levelMap : JsMap Nat TexData :=
          match lv with
          | some (.sliced m) => m
          | _ => []
        let levelMap :=
          match levelMap.get options.slice with
          | some _ => levelMap
          | none => levelMap.set options.slice (t.createSlice options.level)
        let t := { t with _levels := t._levels.set options.level (.sliced levelMap) }
        let t :=
          match t._dirtyLevels.get options.level with
          | some _ => t
          | none => { t with _dirtyLevels := t._dirtyLevels.set options.level (.slices []) }
        .ok ({ t with _operation := t._operation ||| TEXTURE_OPERATION_DIRTY_UPLOAD }, diags)
  else
    let t :=
      match level with
      | some _ => t
      | none => { t with _levels := t._levels.set options.level (.single (t.createSlice options.level)) }
    let t :=
      match t._dirtyLevels.get options.level with
      | some _ => t
      | none => { t with _dirtyLevels := t._dirtyLevels.set options.level (.whole true) }
    .ok ({ t with _operation := t._operation ||| TEXTURE_OPERATION_DIRTY_UPLOAD }, diags)

/-- A `setSource` argument: a single image-like element or raw buffer, or
an array of them. -/
inductive Source
  | elem (d : TexData)
  | arr (xs : List TexData)
deriving DecidableEq, Repr

/-- Index read `source[0]`: `undefined` on a non-array element. -/
def Source.get0 : Source → Option TexData
  | .elem _ => none
  | .arr xs => xs.head?

/-- Index read `source[i]`. -/
def Source.indexRead : Source → Nat → Option TexData
  | .elem _, _ => none
  | .arr xs, i => xs.get? i

/-- The level-0 entry built by the success path of `setSource`
(texture.js lines 996-1004): arrays become a slice-indexed map over every
array entry, single elements are stored directly. -/
def Source.asLevelZero : Source → LevelEntry
  | .elem d => .single d
  | .arr xs => .sliced xs.enum

/-- The validation pass of `setSource` (texture.js lines 946-980),
returning the invalid flag and the adopted width/height.  A raw buffer
face fails in JavaScript through its `undefined` width; here the same face
fails through the browser-interface test, giving the same verdict. -/
def Texture.sourceValidation (t : Texture) (source : Source) : Bool × Nat × Nat :=
  if t.cubemap || t.array then
    match source.get0 with
    | some f0 =>
        let width := f0.width
        let height := f0.height
        let invalid := (List.range t._slices).any fun i =>
          match source.indexRead i with
          | none => true
          | some face =>
              face.width != width || face.height != height || !face.isBrowserInterface
        (invalid, width, height)
    | none => (true, 0, 0)
  else
    match source with
    | .elem (.image w h) => (false, w, h)
    | _ => (true, 0, 0)

/-- One entry of the constructor `options.levels` array: a single source
or a per-slice array of sources. -/
inductive LevelInit
  | one (d : TexData)
  | arr (xs : List TexData)
deriving DecidableEq, Repr

/-- The constructor options object; only the options the reviewed code
reads are modelled.  Absent fields are `none`, matching the `??` defaults
of the source. -/
structure TexOptions where
  width : Option Nat := none
  height : Option Nat := none
  slices : Option Nat := none
  dimension : Option TextureDimension := none
  array : Bool := false
  cubemap : Bool := false
  volume : Bool := false
  format : Option PixelFormat := none
  mipmaps : Option Bool := none
  minFilter : Option Nat := none
  magFilter : Option Nat := none
  flipY : Option Bool := none
  premultiplyAlpha : Option Bool := none
  storage : Option Bool := none
  levels : Option (List LevelInit) := none
  immediate : Option Bool := none
deriving DecidableEq, Repr

/-- Dimensionality resolution of the constructor (texture.js lines
257-260): the array, cubemap and volume flags override, in that order. -/
def TexOptions.resolvedDimension (o : TexOptions) : TextureDimension :=
  let d := o.dimension.getD .d2
  let d := if o.array then .d2Array else d
  let d := if o.cubemap then .cube else d
  if o.volume then .d3 else d

/-- The `options.levels` ingestion loop of the constructor (texture.js
lines 313-328), with its two `Debug.assert` diagnostics. -/
def ingestLevels (arrayOrCube : Bool) (slices : Nat) :
    List (Nat × LevelInit) → JsMap Nat LevelEntry → List String →
    JsMap Nat LevelEntry × List String
  | [], acc, diags => (acc, diags)
  | (l, .one d) :: rest, acc, diags =>
      ingestLevels arrayOrCube slices rest (acc.set l (.single d)) diags
  | (l, .arr xs) :: rest, acc, diags =>
      let d1 := if arrayOrCube then [] else
        ["Texture levels must be a single array for non-array textures"]
      let d2 := if xs.length == slices then [] else
        ["Texture levels must have the same number of slices as the texture"]
      ingestLevels arrayOrCube slices rest (acc.set l (.sliced xs.enum)) (diags ++ d1 ++ d2)

/-- The constructor body without its trailing upload trigger (texture.js
lines 248-328).  `dirtyAll` is applied last here; in the source it runs
just before the level ingestion, but it only touches the operation bitmask
and the property flags, so the two orders agree. -/
def Texture.constructInit (dev : Device) (options : TexOptions) : Texture × List String :=
  let dimension := options.resolvedDimension
  let width := options.width.getD 4
  let height := options.height.getD 4
  let slices := options.slices.getD (if dimension == .cube then 6 else 1)
  let dCube := if dimension == .cube && slices != 6 then
    ["Texture cube map must have 6 slices"] else []
  let format := options.format.getD .rgba8
  let mipmaps := options.mipmaps.getD true
  let minFilter := options.minFilter.getD FILTER_LINEAR_MIPMAP_LINEAR
  let magFilter := options.magFilter.getD FILTER_LINEAR
  let compressed := isCompressedPixelFormat format
  let integerFormat := isIntegerPixelFormat format
  let mipmaps := if integerFormat then false else mipmaps
  let minFilter := if integerFormat then FILTER_NEAREST else minFilter
  let magFilter := if integerFormat then FILTER_NEAREST else magFilter
  let lvRes := ingestLevels (dimension == .d2Array || dimension == .cube) slices
      (options.levels.getD []).enum [] []
  let t : Texture := {
    device := some dev
    impl := {}
    _width := width, _height := height, _slices := slices
    _dimension := dimension, _format := format
    _mipmaps := mipmaps, _minFilter := minFilter, _magFilter := magFilter
    _compressed := compressed, _integerFormat := integerFormat
    _flipY := options.flipY.getD false
    _premultiplyAlpha := options.premultiplyAlpha.getD false
    _storage := options.storage.getD false
    _lockedMode := TEXTURELOCK_NONE
    _operation := TEXTURE_OPERATION_NONE
    _levels := lvRes.1
    _dirtyLevels := []
    _gpuSize := 0
    _invalid := false }
  (t.dirtyAll, dCube ++ lvRes.2)

/-- One GL call relevant to the reviewed claims: which texture region a
call touches, storage reservation, and mipmap-chain generation.  The
sub-image/full-image distinction of a call is reflected in the
`_glCreated` bookkeeping of the helpers, not in the event itself. -/
inductive GLCall
  | tex2D (mipLevel : Nat)
  | tex3D (mipLevel : Nat)
  | texCube (mipLevel face : Nat)
  | texStorage3D (mipLevelCount : Nat)
  | texArray (mipLevel slice : Nat)
  | generateMipmap
deriving DecidableEq, Repr

/-- The combined state a backend call operates on: the texture (which owns
the backend impl state), the shared VRAM texture total, the GL event
trace, and the accumulated diagnostics. -/
structure World where
  tex : Texture
  vram : Int := 0
  trace : List GLCall := []
  diags : List String := []
deriving DecidableEq, Repr

/-- Append one GL event to the trace. -/
def World.emit (w : World) (c : GLCall) : World := { w with trace := w.trace ++ [c] }

/-- Append one diagnostic. -/
def World.warn (w : World) (m : String) : World := { w with diags := w.diags ++ [m] }

/-- Overwrite the texture dimensions (the image-upload paths do this). -/
def World.withSize (w : World) (nw nh : Nat) : World :=
  { w with tex := { w.tex with _width := nw, _height := nh } }

/-- Overwrite the backend `_glCreated` flag. -/
def World.withGlCreated (w : World) (b : Bool) : World :=
  { w with tex := { w.tex with impl := { w.tex.impl with _glCreated := b } } }

/-- `downsampleImage` (webgl-texture.js line 30).  JavaScript computes the
scaled dimensions through a float scale factor; the exact rational floor
is used here. -/
def downsampleImage (iw ih size : Nat) : Nat × Nat :=
  if size < iw || size < ih then
    (iw * size / max iw ih, ih * size / max iw ih)
  else (iw, ih)

/-- The diagnostic emitted when an image source is downsampled. -/
def downsampleMsg : String :=
  "Image dimensions larger than max supported texture size"

/-- The image/canvas upload of `uploadTexture2D` once the dimensions have
been settled (webgl-texture.js lines 410-443): sub-image when the storage
exists at matching dimensions, otherwise a full image (which records the
storage and, at level 0, adopts the image dimensions). -/
def WebglTexture.uploadTexture2DCore (w : World) (mipLevel iw ih : Nat) : World :=
  if w.tex.impl._glCreated && w.tex._width == iw && w.tex._height == ih then
    w.emit (.tex2D mipLevel)
  else
    if mipLevel == 0 then
      (((w.emit (.tex2D mipLevel)).withGlCreated true).withSize iw ih)
    else
      (w.emit (.tex2D mipLevel)).withGlCreated true

/-- The image/canvas path of `uploadTexture2D` (webgl-texture.js lines
398-443), including the downsampling of oversized images (which at level 0
also overwrites the texture dimensions before the upload proper). -/
def WebglTexture.uploadTexture2DImage (dev : Device) (w : World) (mipLevel iw0 ih0 : Nat) :
    World :=
  if iw0 > dev.maxTextureSize || ih0 > dev.maxTextureSize then
    if mipLevel == 0 then
      WebglTexture.uploadTexture2DCore
        ((w.warn downsampleMsg).withSize
          (downsampleImage iw0 ih0 dev.maxTextureSize).1
          (downsampleImage iw0 ih0 dev.maxTextureSize).2)
        mipLevel
        (downsampleImage iw0 ih0 dev.maxTextureSize).1
        (downsampleImage iw0 ih0 dev.maxTextureSize).2
    else
      WebglTexture.uploadTexture2DCore (w.warn downsampleMsg) mipLevel
        (downsampleImage iw0 ih0 dev.maxTextureSize).1
        (downsampleImage iw0 ih0 dev.maxTextureSize).2
  else
    WebglTexture.uploadTexture2DCore w mipLevel iw0 ih0

/-- The byte-array path of `uploadTexture2D` (webgl-texture.js lines
444-499): compressed and plain buffers behave identically with respect to
the modelled state — sub-image when the storage exists and data is
present, otherwise a full (possibly null-data) image that records the
storage. -/
def WebglTexture.tex2DBuffer (w : World) (mipLevel : Nat) (present : Bool) : World :=
  if w.tex._compressed then
    if w.tex.impl._glCreated && present then
      w.emit (.tex2D mipLevel)
    else
      (w.emit (.tex2D mipLevel)).withGlCreated true
  else
    if w.tex.impl._glCreated && present then
      w.emit (.tex2D mipLevel)
    else
      (w.emit (.tex2D mipLevel)).withGlCreated true

/-- `uploadTexture2D` (webgl-texture.js line 395).  An `image` entry takes
the browser-interface path (the video exclusion never triggers for it);
everything else, including an absent level, takes the byte-array path. -/
def WebglTexture.uploadTexture2D (dev : Device) (w : World) (mipLevel : Nat)
    (mipObject : Option LevelEntry) : World :=
  match mipObject with
  | some (.single (.image iw0 ih0)) =>
      WebglTexture.uploadTexture2DImage dev w mipLevel iw0 ih0
  | mo => WebglTexture.tex2DBuffer w mipLevel mo.isSome

/-- `uploadTexture3D` (webgl-texture.js line 502): one call per level; the
compressed branch of the source does not set `_glCreated`. -/
def WebglTexture.uploadTexture3D (w : World) (mipLevel : Nat)
    (_mipObject : Option LevelEntry) : World :=
  if w.tex._compressed then
    w.emit (.tex3D mipLevel)
  else
    (w.emit (.tex3D mipLevel)).withGlCreated true

/-- `uploadTextureCube` (webgl-texture.js line 534): the image path may
downsample (mutating the level-0 dimensions); no branch of the source sets
`_glCreated`. -/
def WebglTexture.uploadTextureCube (dev : Device) (w : World) (mipLevel face : Nat)
    (faceObject : TexData) : World :=
  match faceObject with
  | .image iw0 ih0 =>
      if iw0 > dev.maxCubeMapSize || ih0 > dev.maxCubeMapSize then
        if mipLevel == 0 then
          (((w.warn downsampleMsg).withSize
            (downsampleImage iw0 ih0 dev.maxCubeMapSize).1
            (downsampleImage iw0 ih0 dev.maxCubeMapSize).2).emit (.texCube mipLevel face))
        else
          (w.warn downsampleMsg).emit (.texCube mipLevel face)
      else
        w.emit (.texCube mipLevel face)
  | .buffer _ =>
      w.emit (.texCube mipLevel face)

/-- `uploadTextureArray` (webgl-texture.js line 626): reserves the full
mip-chain storage the first time, then writes one sub-region. -/
def WebglTexture.uploadTextureArray (w : World) (requiredMipLevels mipLevel slice : Nat)
    (_sliceObject : TexData) : World :=
  if !w.tex.impl._glCreated then
    (((w.emit (.texStorage3D requiredMipLevels)).withGlCreated true).emit
      (.texArray mipLevel slice))
  else
    w.emit (.texArray mipLevel slice)

/-- Inner slice loop of the dirty-level path of `WebglTexture.upload`
(webgl-texture.js lines 698-716), threading the per-slice mipmap
tracking.  The error cases model the JavaScript TypeErrors hit when the
level slot is absent or holds a plain entry. -/
def WebglTexture.partialSlices (dev : Device) (requiredMipLevels dirtyLevel : Nat)
    (ds : List Nat) (w : World) (tracking : JsMap Nat Nat) :
    Except Unit (World × JsMap Nat Nat) :=
  match ds with
  | [] => .ok (w, tracking)
  | s :: rest =>
      let tracking := if dirtyLevel == 0 then tracking.set s 0 else tracking
      match w.tex._levels.get dirtyLevel with
      | none => .error ()
      | some (.single _) => .error ()
      | some (.sliced m) =>
          match m.get s with
          | some so =>
              let tracking :=
                match tracking.get s with
                | some c => tracking.set s (c + 1)
                | none => tracking
              let w :=
                match w.tex._dimension with
                | .cube => WebglTexture.uploadTextureCube dev w dirtyLevel s so
                | .d2Array => WebglTexture.uploadTextureArray w requiredMipLevels dirtyLevel s so
                | _ => w
              WebglTexture.partialSlices dev requiredMipLevels dirtyLevel rest w tracking
          | none => WebglTexture.partialSlices dev requiredMipLevels dirtyLevel rest w tracking

/-- Outer loop of the dirty-level path of `WebglTexture.upload`
(webgl-texture.js lines 695-737).  A boolean dirty entry on an
array/cubemap texture is asserted against and then thrown on by the
source's for-of, hence the error case. -/
def WebglTexture.partialLevels (dev : Device) (requiredMipLevels : Nat)
    (entries : List (Nat × DirtyEntry)) (w : World) (tracking : JsMap Nat Nat) :
    Except Unit (World × JsMap Nat Nat) :=
  match entries with
  | [] => .ok (w, tracking)
  | (dirtyLevel, dirtySlices) :: rest =>
      if w.tex.array || w.tex.cubemap then
        match dirtySlices with
        | .whole _ => .error ()
        | .slices ds =>
            match WebglTexture.partialSlices dev requiredMipLevels dirtyLevel ds w tracking with
            | .error e => .error e
            | .ok (w1, tracking1) =>
                WebglTexture.partialLevels dev requiredMipLevels rest w1 tracking1
      else
        match w.tex._levels.get dirtyLevel with
        | some mo =>
            let tracking := if dirtyLevel == 0 then tracking.set 0 0 else tracking
            let w :=
              match w.tex._dimension with
              | .d2 => WebglTexture.uploadTexture2D dev w dirtyLevel (some mo)
              | .d3 => WebglTexture.uploadTexture3D w dirtyLevel (some mo)
              | _ => w
            let tracking :=
              match tracking.get 0 with
              | some c => tracking.set 0 (c + 1)
              | none => tracking
            WebglTexture.partialLevels dev requiredMipLevels rest w tracking
        | none => WebglTexture.partialLevels dev requiredMipLevels rest w tracking

/-- `generateMipmapsIfNeeded` (webgl-texture.js line 806): one regeneration
pass when some tracked slice did not receive its full mip chain. -/
def WebglTexture.generateMipmapsIfNeeded (w : World) (mipmapTracking : JsMap Nat Nat) : World :=
  if (mipmapTracking.any fun p => p.2 != w.tex.requiredMipLevels)
      && w.tex._mipmaps && !w.tex._compressed then
    w.emit .generateMipmap
  else w

/-- Slice loop of the full-upload path (webgl-texture.js lines 757-765 and
772-780); the cubemap and array loops share this definition, distinguished
by `isCube`. -/
def WebglTexture.fullSlices (dev : Device) (isCube : Bool) (requiredMipLevels mipLevel : Nat)
    (m : JsMap Nat TexData) (slices : List Nat) (w : World)
    (anyUploads anyLevelMissing : Bool) : World × Bool × Bool :=
  match slices with
  | [] => (w, anyUploads, anyLevelMissing)
  | s :: rest =>
      match m.get s with
      | some so =>
          let w :=
            if isCube then WebglTexture.uploadTextureCube dev w mipLevel s so
            else WebglTexture.uploadTextureArray w requiredMipLevels mipLevel s so
          WebglTexture.fullSlices dev isCube requiredMipLevels mipLevel m rest w true anyLevelMissing
      | none =>
          WebglTexture.fullSlices dev isCube requiredMipLevels mipLevel m rest w anyUploads true

/-- The body of one iteration of the full-upload mip-level loop, before
its trailing `generateMipmap` conditional (webgl-texture.js lines
744-785): dispatch on the dimensionality, returning the updated world and
the two accumulator flags. -/
def WebglTexture.fullLevelStep (dev : Device) (requiredMipLevels mipLevel : Nat)
    (w : World) (anyUploads anyLevelMissing : Bool) : Except Unit (World × Bool × Bool) :=
  match w.tex._dimension with
  | .d2 =>
      .ok (WebglTexture.uploadTexture2D dev w mipLevel (w.tex._levels.get mipLevel),
        true, anyLevelMissing)
  | .d3 =>
      .ok (WebglTexture.uploadTexture3D w mipLevel (w.tex._levels.get mipLevel),
        true, anyLevelMissing)
  | .cube =>
      match w.tex._levels.get mipLevel with
      | none => .ok (w, anyUploads, true)
      | some (.single _) => .error ()
      | some (.sliced m) =>
          .ok (WebglTexture.fullSlices dev true requiredMipLevels mipLevel m
            (List.range w.tex.slices) w anyUploads anyLevelMissing)
  | .d2Array =>
      match w.tex._levels.get mipLevel with
      | none => .ok (w, anyUploads, true)
      | some (.single _) => .error ()
      | some (.sliced m) =>
          .ok (WebglTexture.fullSlices dev false requiredMipLevels mipLevel m
            (List.range w.tex.slices) w anyUploads anyLevelMissing)

/-- Mip-level loop of the full-upload path (webgl-texture.js lines
743-790).  As in the source, the `generateMipmap` conditional sits INSIDE
the mip-level loop, so once both accumulator flags hold it fires at the
end of every remaining iteration. -/
def WebglTexture.fullLevels (dev : Device) (requiredMipLevels : Nat) (levelsToGo : List Nat)
    (w : World) (anyUploads anyLevelMissing : Bool) : Except Unit World :=
  match levelsToGo with
  | [] => .ok w
  | mipLevel :: rest =>
      match WebglTexture.fullLevelStep dev requiredMipLevels mipLevel w anyUploads anyLevelMissing with
      | .error e => .error e
      | .ok (w1, aU, aM) =>
          if aU && aM && w1.tex._mipmaps && !w1.tex._compressed then
            WebglTexture.fullLevels dev requiredMipLevels rest (w1.emit .generateMipmap) aU aM
          else
            WebglTexture.fullLevels dev requiredMipLevels rest w1 aU aM

/-- Trailing VRAM/state update of `WebglTexture.upload` (webgl-texture.js
lines 793-803): decrement the previously recorded size (skipped when it is
zero), recompute and record `gpuSize`, increment, clear the operation
bitmask and the dirty map, mark the storage created. -/
def WebglTexture.uploadFinish (w : World) : World :=
  let w := if w.tex._gpuSize != 0 then { w with vram := w.vram - (w.tex._gpuSize : Int) } else w
  let newSize := w.tex.gpuSize
  let w := { w with tex := { w.tex with _gpuSize := newSize } }
  let w := { w with vram := w.vram + (newSize : Int) }
  let w := { w with tex := { w.tex with _operation := TEXTURE_OPERATION_NONE, _dirtyLevels := [] } }
  w.withGlCreated true

/-- The destroyed-texture assertion at the head of `WebglTexture.upload`
(webgl-texture.js line 677). -/
def WebglTexture.uploadGuard (w : World) : World :=
  if w.tex.device.isSome then w
  else w.warn "Attempting to use a texture that has been destroyed."

/-- The branch dispatch of `WebglTexture.upload` (webgl-texture.js lines
690-791): dirty-level path when the DIRTY bit is set or dirty entries
exist, full path when the UPLOAD bit is set, otherwise nothing.  The
required mip-level count is read once from the incoming texture, as the
source does before branching. -/
def WebglTexture.uploadBody (dev : Device) (w : World) : Except Unit World :=
  if w.tex._operation &&& TEXTURE_OPERATION_DIRTY_UPLOAD != 0 || w.tex._dirtyLevels.size > 0 then
    match WebglTexture.partialLevels dev w.tex.requiredMipLevels w.tex._dirtyLevels w [] with
    | .error e => .error e
    | .ok (w1, tracking) => .ok (WebglTexture.generateMipmapsIfNeeded w1 tracking)
  else if w.tex._operation &&& TEXTURE_OPERATION_UPLOAD != 0 then
    WebglTexture.fullLevels dev w.tex.requiredMipLevels
      (List.range w.tex.requiredMipLevels) w false false
  else .ok w

/-- `WebglTexture.upload` (webgl-texture.js line 675): early return on a
NONE bitmask, otherwise the branch dispatch followed by the trailing
VRAM/state update. -/
def WebglTexture.upload (dev : Device) (w : World) : Except Unit World :=
  if (WebglTexture.uploadGuard w).tex._operation == TEXTURE_OPERATION_NONE then
    .ok (WebglTexture.uploadGuard w)
  else
    match WebglTexture.uploadBody dev (WebglTexture.uploadGuard w) with
    | .error e => .error e
    | .ok w1 => .ok (WebglTexture.uploadFinish w1)

/-- `initialize` (webgl-texture.js line 106): allocates the native handle
and resets `_glCreated`; the native format triple it also computes is not
part of the modelled state. -/
def WebglTexture.initTexture (w : World) : World :=
  { w with tex := { w.tex with impl := { w.tex.impl with _glTexture := true, _glCreated := false } } }

/-- `uploadImmediate` (webgl-texture.js line 384): on an immediate request,
lazily initialize and run the upload; otherwise defer.  The
`device.bindTexture` call only touches device binding state. -/
def WebglTexture.uploadImmediate (dev : Device) (w : World) (immediate : Bool) :
    Except Unit World :=
  if immediate then
    let w := if !w.tex.impl._glTexture then WebglTexture.initTexture w else w
    WebglTexture.upload dev w
  else .ok w

/-- `Texture.upload` (texture.js line 1058): set the UPLOAD bit and
delegate to the backend's immediate-or-deferred path. -/
def Texture.upload (dev : Device) (w : World) (immediate : Bool) : Except Unit World :=
  let w := { w with tex := { w.tex with _operation := w.tex._operation ||| TEXTURE_OPERATION_UPLOAD } }
  WebglTexture.uploadImmediate dev w immediate

/-- `unlock` (texture.js line 1038): warn when not locked, upload when the
lock was a write lock, always clear the lock state. -/
def Texture.unlock (dev : Device) (w : World) (immediate : Bool) : Except Unit World :=
  let w :=
    if w.tex._lockedMode == TEXTURELOCK_NONE then
      w.warn "Attempting to unlock a texture that is not locked."
    else w
  let rest : Except Unit World :=
    if w.tex._lockedMode == TEXTURELOCK_WRITE then Texture.upload dev w immediate
    else .ok w
  match rest with
  | .error e => .error e
  | .ok w1 => .ok { w1 with tex := { w1.tex with _lockedMode := TEXTURELOCK_NONE } }

/-- World-level wrapper of `Texture.lock`, merging its diagnostics. -/
def World.lock (w : World) (options : LockOptions) : Except Unit World :=
  match w.tex.lock options with
  | .error e => .error e
  | .ok (t, ds) => .ok { w with tex := t, diags := w.diags ++ ds }

/-- `setSource` (texture.js line 945): clear the level map, validate,
adopt the placeholder or the new dimensions and level 0, then re-upload
when validity changed or the source is valid. -/
def Texture.setSource (dev : Device) (w : World) (source : Source) (immediate : Bool) :
    Except Unit World :=
  let t0 := w.tex
  let va := t0.sourceValidation source
  let invalid := va.1
  let t := { t0 with _levels := [] }
  let t :=
    if invalid then
      { t with _width := 4, _height := 4, _levels := [] }
    else
      { t with _width := va.2.1, _height := va.2.2,
               _levels := [(0, source.asLevelZero)] }
  if t0._invalid != invalid || !invalid then
    Texture.upload dev { w with tex := { t with _invalid := invalid } } immediate
  else .ok { w with tex := t }

/-- The full constructor (texture.js lines 248-341): the assembled state
plus the upload trigger fired when initial levels were supplied.  The
device-side texture registry push is outside the modelled state. -/
def Texture.construct (dev : Device) (options : TexOptions) : Except Unit World :=
  let init := Texture.constructInit dev options
  let w : World := { tex := init.1, diags := init.2 }
  if init.1._levels.size > 0 then Texture.upload dev w (options.immediate.getD false)
  else .ok w

/-- A default device used by the concrete scenarios below. -/
def devW : Device := {}

/-- A fallback world for unwrapping `Except` values in concrete scenarios;
the accompanying theorems prove the unwrap never hits it. -/
def dummyWorld : World := { tex := {} }

/-- Options of the spec scenario behind claim C1: a 4-slice 2D-array
texture. -/
def c1opts : TexOptions :=
  { width := some 4, height := some 4, slices := some 4, array := true, format := some .rgba8 }

/-- The C1 scenario up to (and excluding) the backend upload: construct,
lock slice 2 of level 0 for writing, unlock deferred. -/
def c1run : Except Unit World := do
  let w0 ← Texture.construct devW c1opts
  let w1 ← World.lock w0 { level := 0, slice := 2, mode := TEXTURELOCK_WRITE }
  Texture.unlock devW w1 false

/-- The texture of the C1/C7 scenario before any lock. -/
def c7tex : Texture := (Texture.constructInit devW c1opts).1

/-- Options of the C9 scenario: a 2x2 cubemap with only slice 0 of level 0
supplied, mipmaps enabled (two required mip levels). -/
def c9opts : TexOptions :=
  { width := some 2, height := some 2, cubemap := true, format := some .rgba8,
    levels := some [.arr [.buffer 16]] }

/-- The constructed C9 world. -/
def c9run : Except Unit World := Texture.construct devW c9opts

/-- A texture with an integer pixel format, already fully uploaded
(operation bitmask NONE), used by the C5 analysis. -/
def c5tex : Texture :=
  { _format := .r8u, _integerFormat := true, _mipmaps := false,
    _minFilter := FILTER_NEAREST, _magFilter := FILTER_NEAREST,
    _operation := TEXTURE_OPERATION_NONE }

/-- A world whose texture has a NONE operation bitmask (C2 no-op case). -/
def c2wZero : World := { tex := {} }

/-- A world whose texture has the UPLOAD bit set (C2 non-trivial case). -/
def c2wOne : World := { tex := { _operation := TEXTURE_OPERATION_UPLOAD } }

/-- The result of the backend upload on `c2wOne`. -/
def c2wOneRes : World := (WebglTexture.upload devW c2wOne).toOption.getD dummyWorld

/-- A live texture with a recorded GPU size, for the C3 witness. -/
def c3tex : Texture := { _gpuSize := 256 }

/-- Cubemap constructor options with an explicit slice count of 4 (C6). -/
def c6opts : TexOptions := { cubemap := true, slices := some 4 }

/-- The texture constructed from `c6opts`. -/
def c6res : World := (Texture.construct devW c6opts).toOption.getD dummyWorld

/-- Integer-format constructor options requesting mipmaps and linear
filters (C4 witness). -/
def c4opts : TexOptions :=
  { format := some .r8u, mipmaps := some true,
    minFilter := some FILTER_LINEAR_MIPMAP_LINEAR, magFilter := some FILTER_LINEAR }

/-- The texture constructed from `c4opts`. -/
def c4res : World := (Texture.construct devW c4opts).toOption.getD dummyWorld

/-- A 16x4 mipmapped texture (C8 witness). -/
def c8tex : Texture := { _width := 16, _height := 4 }

/-- A 6-slice cubemap world for the C10 witness. -/
def c10w : World := { tex := { _dimension := .cube, _slices := 6 } }

/-- A mismatched-size source array (one face differs), driving the C10
witness through the invalid path. -/
def c10src : Source := .arr [.image 8 8, .image 4 8]

/-- The result of `setSource` on `c10w` with `c10src`. -/
def c10res : World := (Texture.setSource devW c10w c10src false).toOption.getD dummyWorld

/-- Sampler-level frame between two worlds: the dimensionality, format and
sampling fields of the texture are unchanged and diagnostics only grow. -/
def SFrame (w w' : World) : Prop :=
  w'.tex._mipmaps = w.tex._mipmaps ∧
  w'.tex._minFilter = w.tex._minFilter ∧
  w'.tex._magFilter = w.tex._magFilter ∧
  w'.tex._slices = w.tex._slices ∧
  w'.tex._format = w.tex._format ∧
  w'.tex._dimension = w.tex._dimension ∧
  w'.tex._compressed = w.tex._compressed ∧
  w'.tex._integerFormat = w.tex._integerFormat ∧
  ∃ d, w'.diags = w.diags ++ d

/-- Backend-body frame: on top of `SFrame`, the recorded GPU size and the
shared VRAM total are untouched (only the trailing update of the upload
changes them). -/
def BFrame (w w' : World) : Prop :=
  SFrame w w' ∧ w'.tex._gpuSize = w.tex._gpuSize ∧ w'.vram = w.vram

theorem log2Aux_eq (fuel n : Nat) (h : n ≤ fuel) : log2Aux fuel n = Nat.log2 n := by
  induction fuel generalizing n with
  | zero =>
    have hn : n = 0 := Nat.le_zero.mp h
    subst hn
    simp [log2Aux, Nat.log2]
  | succ f ih =>
    unfold log2Aux
    unfold Nat.log2
    split
    · rw [ih]
      omega
    · rfl

theorem floorLog2_eq (n : Nat) : floorLog2 n = Nat.log2 n :=
  log2Aux_eq n n (Nat.le_refl n)

theorem SFrame.srefl (w : World) : SFrame w w :=
  ⟨rfl, rfl, rfl, rfl, rfl, rfl, rfl, rfl, [], by simp⟩

theorem SFrame.strans {w1 w2 w3 : World} (a : SFrame w1 w2) (b : SFrame w2 w3) :
    SFrame w1 w3 := by
  obtain ⟨a1, a2, a3, a4, a5, a6, a7, a8, da, ha⟩ := a
  obtain ⟨b1, b2, b3, b4, b5, b6, b7, b8, db, hb⟩ := b
  refine ⟨?_, ?_, ?_, ?_, ?_, ?_, ?_, ?_, da ++ db, ?_⟩ <;>
    simp_all [List.append_assoc]

theorem BFrame.brefl (w : World) : BFrame w w :=
  ⟨SFrame.srefl w, rfl, rfl⟩

theorem BFrame.btrans {w1 w2 w3 : World} (a : BFrame w1 w2) (b : BFrame w2 w3) :
    BFrame w1 w3 :=
  ⟨a.1.strans b.1, b.2.1.trans a.2.1, b.2.2.trans a.2.2⟩

theorem BFrame.toS {w w' : World} (a : BFrame w w') : SFrame w w' := a.1

theorem emit_bframe (w : World) (c : GLCall) : BFrame w (w.emit c) :=
  ⟨⟨rfl, rfl, rfl, rfl, rfl, rfl, rfl, rfl, [], by simp [World.emit]⟩, rfl, rfl⟩

theorem warn_bframe (w : World) (m : String) : BFrame w (w.warn m) :=
  ⟨⟨rfl, rfl, rfl, rfl, rfl, rfl, rfl, rfl, [m], by simp [World.warn]⟩, rfl, rfl⟩

theorem withSize_bframe (w : World) (a b : Nat) : BFrame w (w.withSize a b) :=
  ⟨⟨rfl, rfl, rfl, rfl, rfl, rfl, rfl, rfl, [], by simp [World.withSize]⟩, rfl, rfl⟩

theorem withGlCreated_bframe (w : World) (b : Bool) : BFrame w (w.withGlCreated b) :=
  ⟨⟨rfl, rfl, rfl, rfl, rfl, rfl, rfl, rfl, [], by simp [World.withGlCreated]⟩, rfl, rfl⟩

theorem uploadTexture2DCore_bframe (w : World) (mip iw ih : Nat) :
    BFrame w (WebglTexture.uploadTexture2DCore w mip iw ih) := by
  unfold WebglTexture.uploadTexture2DCore
  repeat' split
  all_goals
    first
      | exact emit_bframe _ _
      | exact (emit_bframe _ _).btrans (withGlCreated_bframe _ _)
      | exact ((emit_bframe _ _).btrans (withGlCreated_bframe _ _)).btrans (withSize_bframe _ _ _)

theorem uploadTexture2DImage_bframe (dev : Device) (w : World) (mip iw0 ih0 : Nat) :
    BFrame w (WebglTexture.uploadTexture2DImage dev w mip iw0 ih0) := by
  unfold WebglTexture.uploadTexture2DImage
  repeat' split
  all_goals
    first
      | exact uploadTexture2DCore_bframe _ _ _ _
      | exact (warn_bframe _ _).btrans (uploadTexture2DCore_bframe _ _ _ _)
      | exact ((warn_bframe _ _).btrans (withSize_bframe _ _ _)).btrans
          (uploadTexture2DCore_bframe _ _ _ _)

theorem tex2DBuffer_bframe (w : World) (mip : Nat) (present : Bool) :
    BFrame w (WebglTexture.tex2DBuffer w mip present) := by
  unfold WebglTexture.tex2DBuffer
  repeat' split
  all_goals
    first
      | exact emit_bframe _ _
      | exact (emit_bframe _ _).btrans (withGlCreated_bframe _ _)

theorem uploadTexture2D_bframe (dev : Device) (w : World) (mip : Nat)
    (mo : Option LevelEntry) : BFrame w (WebglTexture.uploadTexture2D dev w mip mo) := by
  unfold WebglTexture.uploadTexture2D
  split
  · exact uploadTexture2DImage_bframe _ _ _ _ _
  · exact tex2DBuffer_bframe _ _ _

theorem uploadTexture3D_bframe (w : World) (mip : Nat) (mo : Option LevelEntry) :
    BFrame w (WebglTexture.uploadTexture3D w mip mo) := by
  unfold WebglTexture.uploadTexture3D
  split
  · exact emit_bframe _ _
  · exact (emit_bframe _ _).btrans (withGlCreated_bframe _ _)

theorem uploadTextureCube_bframe (dev : Device) (w : World) (mip face : Nat)
    (fo : TexData) : BFrame w (WebglTexture.uploadTextureCube dev w mip face fo) := by
  unfold WebglTexture.uploadTextureCube
  repeat' split
  all_goals
    first
      | exact emit_bframe _ _
      | exact (warn_bframe _ _).btrans (emit_bframe _ _)
      | exact ((warn_bframe _ _).btrans (withSize_bframe _ _ _)).btrans (emit_bframe _ _)

theorem uploadTextureArray_bframe (w : World) (req mip s : Nat) (so : TexData) :
    BFrame w (WebglTexture.uploadTextureArray w req mip s so) := by
  unfold WebglTexture.uploadTextureArray
  split
  · exact ((emit_bframe _ _).btrans (withGlCreated_bframe _ _)).btrans (emit_bframe _ _)
  · exact emit_bframe _ _

theorem partialSlices_bframe (dev : Device) (req lvl : Nat) (ds : List Nat) :
    ∀ (w : World) (tr : JsMap Nat Nat) (w' : World) (tr' : JsMap Nat Nat),
      WebglTexture.partialSlices dev req lvl ds w tr = .ok (w', tr') → BFrame w w' := by
  induction ds with
  | nil =>
    intro w tr w' tr' h
    simp only [WebglTexture.partialSlices, Except.ok.injEq, Prod.mk.injEq] at h
    rw [← h.1]
    exact BFrame.brefl w
  | cons s rest ih =>
    intro w tr w' tr' h
    simp only [WebglTexture.partialSlices] at h
    repeat' split at h
    all_goals first
      | cases h
      | exact ih _ _ _ _ h
      | exact (uploadTextureCube_bframe _ _ _ _ _).btrans (ih _ _ _ _ h)
      | exact (uploadTextureArray_bframe _ _ _ _ _).btrans (ih _ _ _ _ h)

theorem partialLevels_bframe (dev : Device) (req : Nat) (entries : List (Nat × DirtyEntry)) :
    ∀ (w : World) (tr : JsMap Nat Nat) (w' : World) (tr' : JsMap Nat Nat),
      WebglTexture.partialLevels dev req entries w tr = .ok (w', tr') → BFrame w w' := by
  induction entries with
  | nil =>
    intro w tr w' tr' h
    simp only [WebglTexture.partialLevels, Except.ok.injEq, Prod.mk.injEq] at h
    rw [← h.1]
    exact BFrame.brefl w
  | cons e rest ih =>
    intro w tr w' tr' h
    simp only [WebglTexture.partialLevels] at h
    repeat' split at h
    all_goals first
      | cases h
      | exact ih _ _ _ _ h
      | exact (uploadTexture2D_bframe _ _ _ _).btrans (ih _ _ _ _ h)
      | exact (uploadTexture3D_bframe _ _ _).btrans (ih _ _ _ _ h)
      | (rename_i hps
         exact (partialSlices_bframe _ _ _ _ _ _ _ _ hps).btrans (ih _ _ _ _ h))

theorem fullSlices_bframe (dev : Device) (isCube : Bool) (req mip : Nat)
    (m : JsMap Nat TexData) (slices : List Nat) :
    ∀ (w : World) (aU aM : Bool),
      BFrame w (WebglTexture.fullSlices dev isCube req mip m slices w aU aM).1 := by
  induction slices with
  | nil =>
    intro w aU aM
    exact BFrame.brefl w
  | cons s rest ih =>
    intro w aU aM
    simp only [WebglTexture.fullSlices]
    repeat' split
    all_goals first
      | exact ih _ _ _
      | exact (uploadTextureCube_bframe _ _ _ _ _).btrans (ih _ _ _)
      | exact (uploadTextureArray_bframe _ _ _ _ _).btrans (ih _ _ _)

theorem fullSlicesEq_bframe (dev : Device) (isCube : Bool) (req mip : Nat)
    (m : JsMap Nat TexData) (slices : List Nat) (w : World) (aU aM : Bool)
    (w1 : World) (a b : Bool)
    (h : WebglTexture.fullSlices dev isCube req mip m slices w aU aM = (w1, a, b)) :
    BFrame w w1 := by
  have hb := fullSlices_bframe dev isCube req mip m slices w aU aM
  rw [h] at hb
  exact hb

theorem fullLevelStep_bframe (dev : Device) (req mip : Nat) (w : World) (aU aM : Bool)
    (w1 : World) (aU1 aM1 : Bool)
    (h : WebglTexture.fullLevelStep dev req mip w aU aM = .ok (w1, aU1, aM1)) :
    BFrame w w1 := by
  unfold WebglTexture.fullLevelStep at h
  repeat' split at h
  all_goals first
    | (simp only [Except.ok.injEq, Prod.mk.injEq] at h
       rw [← h.1]
       first
         | exact BFrame.brefl w
         | exact uploadTexture2D_bframe _ _ _ _
         | exact uploadTexture3D_bframe _ _ _)
    | (simp only [Except.ok.injEq] at h
       exact fullSlicesEq_bframe _ _ _ _ _ _ _ _ _ _ _ _ h)
    | cases h

theorem fullLevels_bframe (dev : Device) (req : Nat) (levelsToGo : List Nat) :
    ∀ (w : World) (aU aM : Bool) (w' : World),
      WebglTexture.fullLevels dev req levelsToGo w aU aM = .ok w' → BFrame w w' := by
  induction levelsToGo with
  | nil =>
    intro w aU aM w' h
    simp only [WebglTexture.fullLevels, Except.ok.injEq] at h
    rw [← h]
    exact BFrame.brefl w
  | cons mip rest ih =>
    intro w aU aM w' h
    simp only [WebglTexture.fullLevels] at h
    split at h
    · cases h
    · rename_i w1 aU1 aM1 heq
      have hb := fullLevelStep_bframe dev req mip w aU aM w1 aU1 aM1 heq
      split at h
      · exact (hb.btrans (emit_bframe _ _)).btrans (ih _ _ _ _ h)
      · exact hb.btrans (ih _ _ _ _ h)

theorem generateMipmapsIfNeeded_bframe (w : World) (tr : JsMap Nat Nat) :
    BFrame w (WebglTexture.generateMipmapsIfNeeded w tr) := by
  unfold WebglTexture.generateMipmapsIfNeeded
  split
  · exact emit_bframe _ _
  · exact BFrame.brefl w

theorem uploadFinish_tex_gpuSize (w : World) :
    (WebglTexture.uploadFinish w).tex._gpuSize = w.tex.gpuSize := by
  simp only [WebglTexture.uploadFinish, World.withGlCreated]
  try split <;> rfl

theorem uploadFinish_op (w : World) :
    (WebglTexture.uploadFinish w).tex._operation = TEXTURE_OPERATION_NONE := by
  simp only [WebglTexture.uploadFinish, World.withGlCreated]
  try split <;> rfl

theorem uploadFinish_dirty (w : World) :
    (WebglTexture.uploadFinish w).tex._dirtyLevels = [] := by
  simp only [WebglTexture.uploadFinish, World.withGlCreated]
  try split <;> rfl

theorem uploadFinish_gpuSize_inv (w : World) :
    (WebglTexture.uploadFinish w).tex.gpuSize = w.tex.gpuSize := by
  simp only [WebglTexture.uploadFinish, World.withGlCreated]
  try split <;> simp [Texture.gpuSize, Texture.pot, Texture.volume]

theorem uploadFinish_vram (w : World) :
    (WebglTexture.uploadFinish w).vram
      = w.vram + (w.tex.gpuSize : Int) - (w.tex._gpuSize : Int) := by
  simp only [WebglTexture.uploadFinish, World.withGlCreated]
  split
  · ring
  · rename_i hz
    simp only [bne_iff_ne, ne_eq, not_not] at hz
    simp [hz]

theorem uploadFinish_sframe (w : World) : SFrame w (WebglTexture.uploadFinish w) := by
  refine ⟨?_, ?_, ?_, ?_, ?_, ?_, ?_, ?_, [], ?_⟩ <;>
    (simp only [WebglTexture.uploadFinish, World.withGlCreated]
     try split <;> simp)

theorem uploadGuard_tex (w : World) : (WebglTexture.uploadGuard w).tex = w.tex := by
  unfold WebglTexture.uploadGuard
  split <;> rfl

theorem uploadGuard_vram (w : World) : (WebglTexture.uploadGuard w).vram = w.vram := by
  unfold WebglTexture.uploadGuard
  split <;> rfl

theorem uploadGuard_trace (w : World) : (WebglTexture.uploadGuard w).trace = w.trace := by
  unfold WebglTexture.uploadGuard
  split <;> rfl

theorem uploadGuard_bframe (w : World) : BFrame w (WebglTexture.uploadGuard w) := by
  unfold WebglTexture.uploadGuard
  split
  · exact BFrame.brefl w
  · exact warn_bframe _ _

theorem uploadBody_bframe (dev : Device) (w : World) (w1 : World)
    (h : WebglTexture.uploadBody dev w = .ok w1) : BFrame w w1 := by
  unfold WebglTexture.uploadBody at h
  split at h
  · split at h
    · cases h
    · rename_i w2 tracking heq
      simp only [Except.ok.injEq] at h
      rw [← h]
      exact (partialLevels_bframe dev _ _ _ _ _ _ heq).btrans
        (generateMipmapsIfNeeded_bframe _ _)
  · split at h
    · exact fullLevels_bframe dev _ _ _ _ _ _ h
    · simp only [Except.ok.injEq] at h
      rw [← h]
      exact BFrame.brefl w

theorem webglUpload_ok_decomp (dev : Device) (w w' : World)
    (hop : w.tex._operation ≠ TEXTURE_OPERATION_NONE)
    (h : WebglTexture.upload dev w = .ok w') :
    ∃ w1, BFrame w w1 ∧ w' = WebglTexture.uploadFinish w1 := by
  unfold WebglTexture.upload at h
  rw [uploadGuard_tex] at h
  have hc : (w.tex._operation == TEXTURE_OPERATION_NONE) = false := by
    simpa using hop
  rw [hc] at h
  simp only [Bool.false_eq_true, if_false] at h
  split at h
  · cases h
  · rename_i w1 heq
    simp only [Except.ok.injEq] at h
    exact ⟨w1, (uploadGuard_bframe w).btrans (uploadBody_bframe dev _ w1 heq), h.symm⟩

theorem webglUpload_noop (dev : Device) (w : World)
    (hop : w.tex._operation = TEXTURE_OPERATION_NONE) :
    (WebglTexture.upload dev w).map (fun x => (x.tex, x.vram, x.trace))
      = .ok (w.tex, w.vram, w.trace) := by
  unfold WebglTexture.upload
  rw [uploadGuard_tex, hop]
  simp [Except.map, uploadGuard_tex, uploadGuard_vram, uploadGuard_trace]

theorem webglUpload_sframe (dev : Device) (w w' : World)
    (h : WebglTexture.upload dev w = .ok w') : SFrame w w' := by
  unfold WebglTexture.upload at h
  split at h
  · simp only [Except.ok.injEq] at h
    rw [← h]
    exact (uploadGuard_bframe w).toS
  · split at h
    · cases h
    · rename_i w1 heq
      simp only [Except.ok.injEq] at h
      rw [← h]
      exact (((uploadGuard_bframe w).btrans (uploadBody_bframe dev _ w1 heq)).toS).strans
        (uploadFinish_sframe w1)

theorem initTexture_sframe (w : World) : SFrame w (WebglTexture.initTexture w) :=
  ⟨rfl, rfl, rfl, rfl, rfl, rfl, rfl, rfl, [], by simp [WebglTexture.initTexture]⟩

theorem uploadImmediate_sframe (dev : Device) (w : World) (imm : Bool) (w' : World)
    (h : WebglTexture.uploadImmediate dev w imm = .ok w') : SFrame w w' := by
  unfold WebglTexture.uploadImmediate at h
  split at h
  · split at h
    · exact (initTexture_sframe w).strans (webglUpload_sframe dev _ w' h)
    · exact webglUpload_sframe dev _ w' h
  · simp only [Except.ok.injEq] at h
    rw [← h]
    exact SFrame.srefl w

theorem markUpload_sframe (w : World) :
    SFrame w { w with tex := { w.tex with
      _operation := w.tex._operation ||| TEXTURE_OPERATION_UPLOAD } } :=
  ⟨rfl, rfl, rfl, rfl, rfl, rfl, rfl, rfl, [], by simp⟩

theorem texUpload_sframe (dev : Device) (w : World) (imm : Bool) (w' : World)
    (h : Texture.upload dev w imm = .ok w') : SFrame w w' := by
  unfold Texture.upload at h
  exact (markUpload_sframe w).strans (uploadImmediate_sframe dev _ imm w' h)

theorem construct_sframe (dev : Device) (opts : TexOptions) (w : World)
    (h : Texture.construct dev opts = .ok w) :
    SFrame { tex := (Texture.constructInit dev opts).1,
             diags := (Texture.constructInit dev opts).2 } w := by
  simp only [Texture.construct] at h
  split at h
  · exact texUpload_sframe dev _ _ w h
  · simp only [Except.ok.injEq] at h
    rw [← h]
    exact SFrame.srefl _

theorem constructInit_integer_fields (dev : Device) (opts : TexOptions) (fmt : PixelFormat)
    (hf : opts.format = some fmt) (hi : isIntegerPixelFormat fmt = true) :
    (Texture.constructInit dev opts).1._mipmaps = false ∧
    (Texture.constructInit dev opts).1._minFilter = FILTER_NEAREST ∧
    (Texture.constructInit dev opts).1._magFilter = FILTER_NEAREST := by
  simp [Texture.constructInit, Texture.dirtyAll, Texture.propertyChanged, hf, hi]

theorem constructInit_cube_slices (dev : Device) (opts : TexOptions)
    (hc : opts.resolvedDimension = .cube) :
    (opts.slices = none → (Texture.constructInit dev opts).1._slices = 6) ∧
    (∀ n, opts.slices = some n → (Texture.constructInit dev opts).1._slices = n ∧
      (n ≠ 6 → "Texture cube map must have 6 slices" ∈ (Texture.constructInit dev opts).2)) := by
  constructor
  · intro h
    simp [Texture.constructInit, Texture.dirtyAll, Texture.propertyChanged, hc, h]
  · intro n hn
    constructor
    · simp [Texture.constructInit, Texture.dirtyAll, Texture.propertyChanged, hc, hn]
    · intro hne
      have hb : (n != 6) = true := by simpa using hne
      simp [Texture.constructInit, Texture.dirtyAll, Texture.propertyChanged, hc, hn, hb]

/-- C1: the spec scenario says that after locking slice 2 of level 0 of a
4-slice array texture in WRITE mode and unlocking, the level-0 dirty-slice
set equals exactly the singleton 2 and the backend upload touches only
slice 2.  The code never adds the locked slice to the dirty set it
creates, so the recorded set is empty and the subsequent backend upload
issues no texture write at all: the dirty map afterwards is indeed empty,
but slice 2 is never uploaded. -/
theorem lock_unlock_array_slice_dirty_bug :
    (c1run.map fun w => w.tex._dirtyLevels) = .ok [(0, DirtyEntry.slices [])] ∧
    ((c1run.bind fun w => WebglTexture.upload devW w).map fun w =>
        (w.trace, w.tex._dirtyLevels)) = .ok ([], []) := by
  constructor <;> rfl

/-- C2: the backend upload is a no-op on the texture state, VRAM total and
GL trace when the operation bitmask is NONE; when it is not NONE and the
upload returns, the VRAM total has changed by exactly the recomputed
gpuSize minus the previously recorded size (the decrement and increment
are a single paired adjustment), the recorded size equals the recomputed
one, the bitmask is NONE and the dirty map is empty. -/
theorem upload_noop_and_vram_contract (dev : Device) (w : World) :
    (w.tex._operation = TEXTURE_OPERATION_NONE →
      (WebglTexture.upload dev w).map (fun x => (x.tex, x.vram, x.trace))
        = .ok (w.tex, w.vram, w.trace)) ∧
    (∀ w', w.tex._operation ≠ TEXTURE_OPERATION_NONE →
      WebglTexture.upload dev w = .ok w' →
      w'.vram = w.vram + (w'.tex.gpuSize : Int) - (w.tex._gpuSize : Int) ∧
      w'.tex._gpuSize = w'.tex.gpuSize ∧
      w'.tex._operation = TEXTURE_OPERATION_NONE ∧
      w'.tex._dirtyLevels = []) := by
  constructor
  · exact webglUpload_noop dev w
  · intro w' hop hok
    obtain ⟨w1, hb, hw'⟩ := webglUpload_ok_decomp dev w w' hop hok
    obtain ⟨_, hgpu, hvram⟩ := hb
    subst hw'
    refine ⟨?_, ?_, uploadFinish_op w1, uploadFinish_dirty w1⟩
    · rw [uploadFinish_vram w1, uploadFinish_gpuSize_inv w1, hgpu, hvram]
    · rw [uploadFinish_tex_gpuSize w1, uploadFinish_gpuSize_inv w1]

/-- Witness for C2: the contract applied to a texture with a NONE bitmask
and to one with the UPLOAD bit set. -/
theorem upload_noop_and_vram_contract_witness :
    (c2wZero.tex._operation = TEXTURE_OPERATION_NONE ∧
      (WebglTexture.upload devW c2wZero).map (fun x => (x.tex, x.vram, x.trace))
        = .ok (c2wZero.tex, c2wZero.vram, c2wZero.trace)) ∧
    (c2wOne.tex._operation ≠ TEXTURE_OPERATION_NONE ∧
      WebglTexture.upload devW c2wOne = .ok c2wOneRes ∧
      (c2wOneRes.vram = c2wOne.vram + (c2wOneRes.tex.gpuSize : Int)
          - (c2wOne.tex._gpuSize : Int) ∧
        c2wOneRes.tex._gpuSize = c2wOneRes.tex.gpuSize ∧
        c2wOneRes.tex._operation = TEXTURE_OPERATION_NONE ∧
        c2wOneRes.tex._dirtyLevels = [])) :=
  ⟨⟨by decide, (upload_noop_and_vram_contract devW c2wZero).1 (by decide)⟩,
   ⟨by decide, by rfl,
    (upload_noop_and_vram_contract devW c2wOne).2 c2wOneRes (by decide) (by rfl)⟩⟩

/-- C3: destroying a live texture decreases the shared VRAM texture total
by exactly the recorded `_gpuSize`, and a second destroy changes neither
the texture nor the accounting. -/
theorem destroy_vram_decrement_idempotent (t : Texture) (vram : Int) :
    (t.device.isSome = true → (t.destroy vram).2 = vram - (t._gpuSize : Int)) ∧
    ((t.destroy vram).1.destroy (t.destroy vram).2 = t.destroy vram) := by
  rcases hd : t.device with _ | d
  · constructor
    · intro h
      simp at h
    · simp [Texture.destroy, hd]
  · constructor
    · intro _
      simp [Texture.destroy, hd]
    · simp [Texture.destroy, hd]

/-- Witness for C3: a live texture with a recorded size of 256. -/
theorem destroy_vram_decrement_idempotent_witness :
    c3tex.device.isSome = true ∧
    (c3tex.destroy 1000).2 = 1000 - (c3tex._gpuSize : Int) :=
  ⟨by decide, (destroy_vram_decrement_idempotent c3tex 1000).1 (by decide)⟩

/-- C4: a texture constructed with an integer pixel format has mipmaps
disabled and both filters forced to nearest, regardless of the requested
options. -/
theorem construct_integer_format_forces_nearest (dev : Device) (opts : TexOptions)
    (fmt : PixelFormat) (w : World) (hf : opts.format = some fmt)
    (hi : isIntegerPixelFormat fmt = true) (hok : Texture.construct dev opts = .ok w) :
    w.tex._mipmaps = false ∧ w.tex._minFilter = FILTER_NEAREST ∧
      w.tex._magFilter = FILTER_NEAREST := by
  obtain ⟨h1, h2, h3, _⟩ := construct_sframe dev opts w hok
  have hI := constructInit_integer_fields dev opts fmt hf hi
  exact ⟨h1.trans hI.1, h2.trans hI.2.1, h3.trans hI.2.2⟩

/-- Witness for C4: an R8U texture explicitly requesting mipmaps and
linear filters still ends up nearest-filtered without mipmaps. -/
theorem construct_integer_format_forces_nearest_witness :
    c4opts.format = some PixelFormat.r8u ∧ isIntegerPixelFormat PixelFormat.r8u = true ∧
    Texture.construct devW c4opts = .ok c4res ∧
    (c4res.tex._mipmaps = false ∧ c4res.tex._minFilter = FILTER_NEAREST ∧
      c4res.tex._magFilter = FILTER_NEAREST) :=
  ⟨rfl, rfl, by rfl,
   construct_integer_format_forces_nearest devW c4opts .r8u c4res rfl rfl (by rfl)⟩

/-- Counterexample for C5: the claim says a rejected mipmaps change on an
integer texture leaves the operation bitmask unchanged; on a fully
uploaded integer texture (bitmask NONE), enabling mipmaps is rejected with
a diagnostic and the mipmaps flag stays false, yet the setter still sets
the UPLOAD bit. -/
theorem integer_mipmaps_setter_changes_operation :
    isIntegerPixelFormat c5tex._format = true ∧
    (c5tex.setMipmaps true).2 ≠ [] ∧
    (c5tex.setMipmaps true).1._mipmaps = c5tex._mipmaps ∧
    (c5tex.setMipmaps true).1._operation ≠ c5tex._operation := by
  refine ⟨rfl, ?_, rfl, by decide⟩
  intro h
  cases h

/-- C5 (amended): on an integer-format texture, later attempts to enable
mipmaps or change a filter are rejected with a diagnostic; the mipmaps
flag, filter fields and dirty-level map are unchanged, and the filter
setters leave the texture entirely unchanged — but the mipmaps setter
still rewrites the operation bitmask (toggling CLEAR_MIPS and setting
UPLOAD via dirtyAll). -/
theorem integer_setters_amended (t : Texture) (v : Bool) (f g : Nat)
    (hi : isIntegerPixelFormat t._format = true) :
    ((t.setMipmaps v).1._mipmaps = t._mipmaps ∧
      (t.setMipmaps v).1._minFilter = t._minFilter ∧
      (t.setMipmaps v).1._magFilter = t._magFilter ∧
      (t.setMipmaps v).1._dirtyLevels = t._dirtyLevels ∧
      (t._mipmaps ≠ v → (t.setMipmaps v).2 ≠ [] ∧
        (t.setMipmaps v).1._operation =
          (if v then t._operation &&& CLEAR_MIPS_COMPLEMENT
            else t._operation ||| TEXTURE_OPERATION_CLEAR_MIPS) ||| TEXTURE_OPERATION_UPLOAD)) ∧
    ((t.setMinFilter f).1 = t ∧ (t._minFilter ≠ f → (t.setMinFilter f).2 ≠ [])) ∧
    ((t.setMagFilter g).1 = t ∧ (t._magFilter ≠ g → (t.setMagFilter g).2 ≠ [])) := by
  refine ⟨?_, ⟨?_, ?_⟩, ⟨?_, ?_⟩⟩
  · by_cases hmv : (t._mipmaps != v) = true
    · have hne : t._mipmaps ≠ v := by simpa using hmv
      cases v <;>
        by_cases hw : (t.device.map Device.isWebGPU).getD false = true <;>
          simp [Texture.setMipmaps, hmv, hw, hi, Texture.dirtyAll,
            Texture.propertyChanged, hne]
    · have hbv : t._mipmaps = v := by simpa using hmv
      simp [Texture.setMipmaps, hmv, hbv]
  · by_cases hf2 : (t._minFilter != f) = true
    · simp [Texture.setMinFilter, hf2, hi]
    · simp [Texture.setMinFilter, hf2]
  · intro hne
    have hb : (t._minFilter != f) = true := by simpa using hne
    simp [Texture.setMinFilter, hb, hi]
  · by_cases hg2 : (t._magFilter != g) = true
    · simp [Texture.setMagFilter, hg2, hi]
    · simp [Texture.setMagFilter, hg2]
  · intro hne
    have hb : (t._magFilter != g) = true := by simpa using hne
    simp [Texture.setMagFilter, hb, hi]

/-- Witness for C5 (amended): the rejected setters on a concrete integer
texture. -/
theorem integer_setters_amended_witness :
    isIntegerPixelFormat c5tex._format = true ∧
    (c5tex.setMipmaps true).1._mipmaps = c5tex._mipmaps ∧
    (c5tex.setMinFilter 1).1 = c5tex ∧
    (c5tex.setMagFilter 1).1 = c5tex :=
  ⟨by decide,
   (integer_setters_amended c5tex true 1 1 (by decide)).1.1,
   (integer_setters_amended c5tex true 1 1 (by decide)).2.1.1,
   (integer_setters_amended c5tex true 1 1 (by decide)).2.2.1⟩

/-- Counterexample for C6: the claim says constructing a cubemap with an
explicit slice count other than 6 is rejected; the constructor only raises
an assertion diagnostic and the texture ends up holding the requested
count of 4. -/
theorem cubemap_explicit_slices_not_rejected :
    (Texture.construct devW c6opts).map (fun w => (w.tex._dimension, w.tex._slices))
      = .ok (TextureDimension.cube, 4) ∧ (4 : Nat) ≠ 6 := by
  constructor
  · rfl
  · decide

/-- C6 (amended): a cubemap constructed without an explicit slice count
has 6 slices; with an explicit count n, the texture holds n, and when
n is not 6 the cube-slices assertion diagnostic is raised. -/
theorem cubemap_slices_amended (dev : Device) (opts : TexOptions) (w : World)
    (hok : Texture.construct dev opts = .ok w) (hc : opts.resolvedDimension = .cube) :
    (opts.slices = none → w.tex._slices = 6) ∧
    (∀ n, opts.slices = some n → w.tex._slices = n ∧
      (n ≠ 6 → "Texture cube map must have 6 slices" ∈ w.diags)) := by
  obtain ⟨_, _, _, hsl, _, _, _, _, d, hd⟩ := construct_sframe dev opts w hok
  have hcs := constructInit_cube_slices dev opts hc
  constructor
  · intro h
    rw [hsl]
    exact hcs.1 h
  · intro n hn
    refine ⟨by rw [hsl]; exact (hcs.2 n hn).1, fun hne => ?_⟩
    rw [hd]
    exact List.mem_append.mpr (Or.inl ((hcs.2 n hn).2 hne))

/-- Witness for C6 (amended): the 4-slice cubemap construction. -/
theorem cubemap_slices_amended_witness :
    Texture.construct devW c6opts = .ok c6res ∧ c6opts.resolvedDimension = .cube ∧
    c6res.tex._slices = 4 ∧ "Texture cube map must have 6 slices" ∈ c6res.diags :=
  ⟨by rfl, by decide,
   ((cubemap_slices_amended devW c6opts c6res (by rfl) (by decide)).2 4 rfl).1,
   ((cubemap_slices_amended devW c6opts c6res (by rfl) (by decide)).2 4 rfl).2 (by decide)⟩

/-- C7: the claim says locking an in-range slice (including slice 0) of an
unlocked cubemap or 2D-array texture with a valid mode raises no
diagnostic.  The asserted condition of the source is inverted — it holds
only for slice 0 of a plain texture — so locking slice 2 of an unlocked
4-slice array texture raises the slice diagnostic even though every
claimed precondition is satisfied. -/
theorem lock_slice_assert_inverted :
    c7tex._lockedMode = TEXTURELOCK_NONE ∧ c7tex.array = true ∧ 2 < c7tex._slices ∧
    (c7tex.lock { level := 0, slice := 2, mode := TEXTURELOCK_WRITE }).map (fun p => p.2)
      = .ok ["Cannot lock a slice of a non-cubemap or non-texture array texture."] := by
  refine ⟨by decide, by decide, by decide, by rfl⟩

/-- C8: for valid dimensions, `requiredMipLevels` is 1 when mipmaps are
disabled and floor(log2(max(width, height))) + 1 when enabled, for every
dimensionality (the getter passes the depth along, the formula ignores
it). -/
theorem requiredMipLevels_formula (t : Texture) (_hw : 0 < t._width) (_hh : 0 < t._height) :
    t.requiredMipLevels =
      if t._mipmaps then Nat.log2 (max t._width t._height) + 1 else 1 := by
  simp [Texture.requiredMipLevels, calcMipLevelsCount, floorLog2_eq]

/-- Witness for C8: a 16x4 mipmapped texture. -/
theorem requiredMipLevels_formula_witness :
    0 < c8tex._width ∧ 0 < c8tex._height ∧
    c8tex.requiredMipLevels =
      (if c8tex._mipmaps then Nat.log2 (max c8tex._width c8tex._height) + 1 else 1) :=
  ⟨by decide, by decide, requiredMipLevels_formula c8tex (by decide) (by decide)⟩

/-- C9: the claim says the full-upload path regenerates the mipmap chain
in exactly one pass after all present levels are uploaded.  On a 2x2
cubemap with only slice 0 of level 0 supplied (UPLOAD bit set, no dirty
entries, two required mip levels), the code emits `generateMipmap` twice —
once at the end of each loop iteration, the first of them before level 1
is processed. -/
theorem full_upload_generate_mipmap_in_loop :
    (c9run.map fun w =>
        (w.tex._operation &&& TEXTURE_OPERATION_DIRTY_UPLOAD, w.tex._dirtyLevels.size,
          w.tex.requiredMipLevels)) = .ok (0, 0, 2) ∧
    ((c9run.bind fun w => WebglTexture.upload devW w).map fun w => w.trace)
      = .ok [GLCall.texCube 0 0, GLCall.generateMipmap, GLCall.generateMipmap] := by
  constructor <;> rfl

/-- C10: a deferred `setSource` never changes the slice count (nor the
lock state, dirty map, dimensionality or format); on validation failure
only the dimensions are reset to the 4x4 placeholder and the level map is
cleared, and on success the adopted dimensions and the new level-0 entry
are the only pixel-state changes. -/
theorem setSource_preserves_slices (dev : Device) (w : World) (src : Source) (w' : World)
    (hok : Texture.setSource dev w src false = .ok w') :
    w'.tex._slices = w.tex._slices ∧
    w'.tex._lockedMode = w.tex._lockedMode ∧
    w'.tex._dirtyLevels = w.tex._dirtyLevels ∧
    w'.tex._dimension = w.tex._dimension ∧
    w'.tex._format = w.tex._format ∧
    ((w.tex.sourceValidation src).1 = true →
      w'.tex._width = 4 ∧ w'.tex._height = 4 ∧ w'.tex._levels = [] ∧
        w'.tex._invalid = true) ∧
    ((w.tex.sourceValidation src).1 = false →
      w'.tex._width = (w.tex.sourceValidation src).2.1 ∧
      w'.tex._height = (w.tex.sourceValidation src).2.2 ∧
      w'.tex._levels = [(0, src.asLevelZero)] ∧ w'.tex._invalid = false) := by
  cases hv : (w.tex.sourceValidation src).1 with
  | false =>
    simp only [Texture.setSource, hv, Texture.upload, WebglTexture.uploadImmediate,
      Bool.not_false, Bool.or_true, if_true, Bool.false_eq_true, if_false,
      Except.ok.injEq] at hok
    rw [← hok]
    simp [hv]
  | true =>
    cases hinv : w.tex._invalid with
    | false =>
      simp only [Texture.setSource, hv, hinv, Texture.upload, WebglTexture.uploadImmediate,
        Bool.not_true, Bool.or_false, Bool.false_bne, if_true, Bool.false_eq_true, if_false,
        Except.ok.injEq] at hok
      rw [← hok]
      simp [hv]
    | true =>
      simp only [Texture.setSource, hv, hinv, Texture.upload, WebglTexture.uploadImmediate,
        Bool.not_true, Bool.or_false, Bool.true_bne, Bool.not_true, if_true,
        Bool.false_eq_true, if_false, Except.ok.injEq] at hok
      rw [← hok]
      simp [hv, hinv]

/-- Witness for C10: a cubemap fed a mismatched source array goes through
the invalid path with its slice count untouched. -/
theorem setSource_preserves_slices_witness :
    Texture.setSource devW c10w c10src false = .ok c10res ∧
    (c10w.tex.sourceValidation c10src).1 = true ∧
    c10res.tex._slices = c10w.tex._slices ∧
    (c10res.tex._width = 4 ∧ c10res.tex._height = 4 ∧ c10res.tex._levels = [] ∧
      c10res.tex._invalid = true) :=
  ⟨by rfl, by rfl,
   (setSource_preserves_slices devW c10w c10src c10res (by rfl)).1,
   (setSource_preserves_slices devW c10w c10src c10res (by rfl)).2.2.2.2.2.1 (by rfl)⟩

end Pc
